import Mathlib

/-!
Verification of the multi-session transport lifecycle and command-dispatch
layer of `mcpcli` (`src/mcpcli/__main__.py`), as a shallow embedding.

External collaborators (`load_config`, `stdio_client`, `sse_client`,
`send_initialize`, `send_ping`, `send_tools_list`, ...) live outside the
embedded file; the embedding parameterises over the *outcome* of each such
call (success / falsy return / raised exception), and the control flow that
reacts to those outcomes is translated from `__main__.py`.
-/

namespace MCPCli

/-! ## Lifecycle model: `run` (`__main__.py` lines 281-327) and
`cli_main` (lines 329-388) -/

/-- Kind of transport a server connection uses (`StdioServerParameters`
vs `SSEServerParameters`, lines 297 and 307). -/
inductive TransportKind where
  | stdio
  | sse
deriving DecidableEq

/-- Outcome of the external calls made while connecting one configured
server in the loop at lines 293-314:
* `configError`: `load_config` (line 294) raises — per spec section 6 this is
  what happens when the requested server name is absent from configuration
  (`load_config` itself is outside the embedded file);
* `stdioOpenError`: `stdio_client(...).__aenter__()` (line 299) raises;
* `stdioInitRaises`: the stdio transport opened but `send_initialize`
  (line 303) raises;
* `stdioInitFalsy`: the stdio transport opened and `send_initialize`
  returned a falsy value (line 304);
* `stdioOk`: stdio transport opened and `send_initialize` returned truthy;
* `sseOpenError`: `sse_client(...).__aenter__()` (line 309) raises;
* `sseOk`: the SSE transport opened (note: the SSE branch, lines 307-311,
  performs no `send_initialize` call at all);
* `unsupported`: `server_params` matches neither kind, so line 314 raises
  `ValueError`. -/
inductive ServerConnectSpec where
  | configError
  | stdioOpenError
  | stdioInitRaises
  | stdioInitFalsy
  | stdioOk
  | sseOpenError
  | sseOk
  | unsupported
deriving DecidableEq

/-- One successfully opened transport, as recorded in `context_managers` /
`server_streams` (lines 290-291): its position in configuration order,
its transport kind, how many times `send_initialize` was invoked on it,
and whether an invocation succeeded. -/
structure SessionRec where
  index : Nat
  kind : TransportKind
  initAttempts : Nat
  initOk : Bool
deriving DecidableEq

/-- How `run` finished:
* `raised`: an exception propagated out of `run` (caught by `cli_main`
  at line 386, which exits with code 1);
* `initFailed`: `run` returned early via the `return` at line 306 after a
  falsy `send_initialize`;
* `completed`: the connect loop finished for every server, the
  `try`/`finally` at lines 316-327 ran the command (or interactive mode)
  and then closed every context manager. -/
inductive RunOutcome where
  | raised
  | initFailed
  | completed
deriving DecidableEq

/-- Trace of one execution of `run` (lines 281-327):
`sessions` — the successfully opened transports, in configuration order;
`closed` — indices of transports on which `__aexit__` was attempted
(the `finally` loop, lines 325-327, runs only if the `try` block at
line 316 was entered, i.e. only when the connect loop completed);
`ranPhase` — whether the Running step (line 317-322: `handle_command` or
`interactive_mode` over `server_streams`) executed;
`outcome` — how `run` finished. -/
structure RunTrace where
  sessions : List SessionRec
  closed : List Nat
  ranPhase : Bool
  outcome : RunOutcome
deriving DecidableEq

/-- The connect loop of `run` (lines 293-314) followed by the
`try`/`finally` (lines 316-327), with `i` the index of the next server and
`acc` the transports opened so far.  A raised exception or the early
`return` at line 306 leaves `run` before the `try`/`finally` is entered,
so in those cases no `__aexit__` is attempted (`closed = []`) and the
Running step does not execute. -/
def runFrom : Nat → List SessionRec → List ServerConnectSpec → RunTrace
  | _, acc, [] =>
      ⟨acc, acc.map SessionRec.index, true, RunOutcome.completed⟩
  | _, acc, ServerConnectSpec.configError :: _ =>
      ⟨acc, [], false, RunOutcome.raised⟩
  | _, acc, ServerConnectSpec.stdioOpenError :: _ =>
      ⟨acc, [], false, RunOutcome.raised⟩
  | i, acc, ServerConnectSpec.stdioInitRaises :: _ =>
      ⟨acc ++ [⟨i, TransportKind.stdio, 1, false⟩], [], false, RunOutcome.raised⟩
  | i, acc, ServerConnectSpec.stdioInitFalsy :: _ =>
      ⟨acc ++ [⟨i, TransportKind.stdio, 1, false⟩], [], false, RunOutcome.initFailed⟩
  | i, acc, ServerConnectSpec.stdioOk :: rest =>
      runFrom (i + 1) (acc ++ [⟨i, TransportKind.stdio, 1, true⟩]) rest
  | _, acc, ServerConnectSpec.sseOpenError :: _ =>
      ⟨acc, [], false, RunOutcome.raised⟩
  | i, acc, ServerConnectSpec.sseOk :: rest =>
      runFrom (i + 1) (acc ++ [⟨i, TransportKind.sse, 0, false⟩]) rest
  | _, acc, ServerConnectSpec.unsupported :: _ =>
      ⟨acc, [], false, RunOutcome.raised⟩

/-- `run` (lines 281-327): connect each configured server in order, then
run the command / interactive loop and finally close everything. -/
def run (servers : List ServerConnectSpec) : RunTrace :=
  runFrom 0 [] servers

/-- `cli_main` (lines 383-388): `run` returns `None`, so
`sys.exit(result)` is `sys.exit(None)` — exit code 0 — whenever `run`
returns normally (this includes the early `return` at line 306); a raised
exception is caught at line 386 and turns into `sys.exit(1)`. -/
def exitCodeOf : RunOutcome → Nat
  | RunOutcome.raised => 1
  | RunOutcome.initFailed => 0
  | RunOutcome.completed => 0

/-- Exit code of the whole process for a given `run` trace. -/
def exitCode (t : RunTrace) : Nat := exitCodeOf t.outcome

/-- A server whose connect-loop iteration completes without raising and
without the early `return`: the loop proceeds to the next server. -/
def connectSucceeds : ServerConnectSpec → Bool
  | ServerConnectSpec.stdioOk => true
  | ServerConnectSpec.sseOk => true
  | _ => false

/-- The session records accumulated by a run of the connect loop over a
list of servers that all connect successfully, starting at index `i`. -/
def succRecords : Nat → List ServerConnectSpec → List SessionRec
  | _, [] => []
  | i, ServerConnectSpec.stdioOk :: rest =>
      ⟨i, TransportKind.stdio, 1, true⟩ :: succRecords (i + 1) rest
  | i, ServerConnectSpec.sseOk :: rest =>
      ⟨i, TransportKind.sse, 0, false⟩ :: succRecords (i + 1) rest
  | i, _ :: rest => succRecords (i + 1) rest

/-! ## Fan-out commands: the per-server loops of `handle_command`
(`__main__.py` lines 58-243; the loop shape is lines 63-71 for `ping`,
75-97 for `list-tools`, 138-159 for `list-resources`, 163-182 for
`list-prompts`). -/

/-- Outcome of the awaited `send_*` call for one server inside a fan-out
loop: `ok` — a truthy / useful response; `bad` — a falsy or failure-shaped
response (e.g. `send_ping` returning `False`, line 69); `raises` — the
await raises an exception. -/
inductive SessionBehavior where
  | ok
  | bad
  | raises
deriving DecidableEq

/-- The per-server panel printed by a fan-out loop iteration: a success
panel or a failure panel, labelled `server_num = i + 1` (line 65). -/
inductive PerServerResult where
  | success (serverNum : Nat)
  | failure (serverNum : Nat)
deriving DecidableEq

/-- What one dispatch of a fan-out command produced: the per-server
results actually emitted, and whether the outer
`except Exception` handler of `handle_command` (lines 240-241) printed
its single error message. -/
structure FanoutOutcome where
  results : List PerServerResult
  errorMessage : Bool
deriving DecidableEq

/-- The result the fan-out loop emits for server index `i` (0-based) when
its `send_*` call returns: success panel on `ok`, failure panel on `bad`
(the `raises` row is never emitted by the loop; it is listed to keep the
function total). -/
def expectedResult (i : Nat) : SessionBehavior → PerServerResult
  | SessionBehavior.ok => PerServerResult.success (i + 1)
  | SessionBehavior.bad => PerServerResult.failure (i + 1)
  | SessionBehavior.raises => PerServerResult.failure (i + 1)

/-- The per-server results for a raise-free behavior list starting at
server index `i`. -/
def expectedFrom : Nat → List SessionBehavior → List PerServerResult
  | _, [] => []
  | i, b :: rest => expectedResult i b :: expectedFrom (i + 1) rest

/-- The `for i, (read_stream, write_stream) in enumerate(server_streams)`
loop of a fan-out command, starting at server index `i`.  Each iteration
awaits the `send_*` call and prints one panel; an exception propagates to
the single `except` at line 240, which prints one error message — the
remaining iterations never run, so servers from the raising one onwards
produce no per-server result. -/
def fanout : Nat → List SessionBehavior → FanoutOutcome
  | _, [] => ⟨[], false⟩
  | _, SessionBehavior.raises :: _ => ⟨[], true⟩
  | i, SessionBehavior.ok :: rest =>
      let o := fanout (i + 1) rest
      ⟨PerServerResult.success (i + 1) :: o.results, o.errorMessage⟩
  | i, SessionBehavior.bad :: rest =>
      let o := fanout (i + 1) rest
      ⟨PerServerResult.failure (i + 1) :: o.results, o.errorMessage⟩

/-- Dispatching one fan-out command (`ping`, `list-tools`,
`list-resources`, `list-prompts`) against the ordered session set. -/
def handleFanoutCommand (sessions : List SessionBehavior) : FanoutOutcome :=
  fanout 0 sessions

/-! ## Timing of the fan-out loop (claim about concurrency).
Each loop iteration `await`s its `send_*` call to completion before the
next iteration begins (lines 63-64: `for ...: result = await send_ping(...)`),
so with per-server request/response durations `d₁, d₂, ...` the operation
for server `k+1` starts exactly when server `k`'s finishes. -/

/-- Start/finish times of each per-server operation when the loop begins
at time `t` and the servers' request/response cycles take the given
durations. -/
def sequentialSchedule : Nat → List Nat → List (Nat × Nat)
  | _, [] => []
  | t, d :: rest => (t, t + d) :: sequentialSchedule (t + d) rest

/-- Timing of one fan-out dispatch started at time 0. -/
def fanoutSchedule (durations : List Nat) : List (Nat × Nat) :=
  sequentialSchedule 0 durations

/-! ## Closing phase (`__main__.py` lines 323-327): the `finally` block
closes each context manager inside `with anyio.move_on_after(1)`, so each
transport's close is waited on for at most one second (1000 ms) and then
abandoned; there is exactly one close attempt per transport and no retry. -/

/-- The per-transport close deadline: `anyio.move_on_after(1)` — one
second, in milliseconds. -/
def closeDeadlineMs : Nat := 1000

/-- Wall time spent on one transport's `__aexit__` under
`move_on_after(1)`: a close that would take `d` ms completes after
`min d 1000`; a close that never completes (`none`) is abandoned after
the deadline. -/
def closeElapsed : Option Nat → Nat
  | some d => min d closeDeadlineMs
  | none => closeDeadlineMs

/-- Total wall time of the closing loop over the opened transports'
close durations (one attempt per transport, in order). -/
def closingTotalTime (closes : List (Option Nat)) : Nat :=
  (closes.map closeElapsed).sum

/-! ## Interactive loop (`interactive_mode`, lines 252-272) and command
normalization / recognition (`handle_command`, lines 61-239). -/

/-- Python `str.strip` whitespace set: space, tab, newline, carriage
return, vertical tab, form feed. -/
def pyWhitespace (c : Char) : Bool :=
  c = ' ' || c = '\t' || c = '\n' || c = '\r' || c = '\x0b' || c = '\x0c'

/-- Python `str.strip()`: drop leading and trailing whitespace. -/
def pyStrip (s : String) : String :=
  ((((s.toList.dropWhile pyWhitespace).reverse).dropWhile pyWhitespace).reverse).asString

/-- Python `str.lower()` (ASCII case mapping, which covers every command
name the dispatcher recognizes). -/
def pyLower (s : String) : String :=
  (s.toList.map Char.toLower).asString

/-- Line 263: `command = Prompt.ask(...).strip().lower()`. -/
def normalizeCommand (s : String) : String :=
  pyLower (pyStrip s)

/-- The command vocabulary recognized by `handle_command`'s
`if`/`elif` chain (lines 61-239), in source order; anything else falls to
the `else` at line 237, which prints a non-fatal message. -/
inductive CommandKind where
  | ping
  | listTools
  | callTool
  | listResources
  | listPrompts
  | chat
  | quitExit
  | clear
  | help
  | unknown
deriving DecidableEq

/-- Which branch of `handle_command` a (already normalized) command
string selects. -/
def classifyCommand (c : String) : CommandKind :=
  if c = "ping" then CommandKind.ping
  else if c = "list-tools" then CommandKind.listTools
  else if c = "call-tool" then CommandKind.callTool
  else if c = "list-resources" then CommandKind.listResources
  else if c = "list-prompts" then CommandKind.listPrompts
  else if c = "chat" then CommandKind.chat
  else if c = "quit" || c = "exit" then CommandKind.quitExit
  else if c = "clear" then CommandKind.clear
  else if c = "help" then CommandKind.help
  else CommandKind.unknown

/-- Return value of `handle_command`: `False` (stop the loop) exactly for
`quit`/`exit` (lines 210-212); every other branch — including the
`except Exception` handler at lines 240-241, so also a command whose
execution raised — returns `True` (line 243). -/
def shouldContinue (c : String) : Bool :=
  !(classifyCommand c = CommandKind.quitExit)

/-- One interaction with the user's terminal inside the `while True` loop:
a line returned by `Prompt.ask` (with a flag recording whether executing
the command raised inside `handle_command` — which its handler catches),
or `EOFError` on end-of-input. -/
inductive InputEvent where
  | line (s : String) (raisesInHandler : Bool)
  | eof
deriving DecidableEq

/-- Why `interactive_mode` stopped consuming input:
`quitCommand` — `handle_command` returned `False` and the loop executed
`return` (lines 266-268); `endOfInput` — `EOFError` broke the loop
(lines 269-270); `pendingInput` — the supplied finite event list ran out
while the loop was still going (the loop itself would keep reading). -/
inductive LoopExit where
  | quitCommand
  | endOfInput
  | pendingInput
deriving DecidableEq

/-- Trace of `interactive_mode` over a finite list of input events:
how many times the prompt was read, which normalized commands were passed
to `handle_command` (in order), and why the loop stopped. -/
structure LoopTrace where
  linesRead : Nat
  dispatched : List String
  exit : LoopExit
deriving DecidableEq

/-- The `while True` loop of `interactive_mode` (lines 261-272): read a
line, `strip().lower()` it, skip it if empty (line 264-265: `continue`
without calling `handle_command`), otherwise dispatch it and stop exactly
when `handle_command` returns `False`. -/
def interactiveLoop : List InputEvent → LoopTrace
  | [] => ⟨0, [], LoopExit.pendingInput⟩
  | InputEvent.eof :: _ => ⟨1, [], LoopExit.endOfInput⟩
  | InputEvent.line s _ :: rest =>
      let command := normalizeCommand s
      if command = "" then
        let t := interactiveLoop rest
        ⟨t.linesRead + 1, t.dispatched, t.exit⟩
      else if shouldContinue command then
        let t := interactiveLoop rest
        ⟨t.linesRead + 1, command :: t.dispatched, t.exit⟩
      else
        ⟨1, [command], LoopExit.quitCommand⟩

/-- An event on which the loop would stop via `return`: a line whose
normalized command makes `handle_command` return `False`. -/
def isQuitEvent : InputEvent → Bool
  | InputEvent.line s _ => !shouldContinue (normalizeCommand s)
  | InputEvent.eof => false

/-- An end-of-input event. -/
def isEofEvent : InputEvent → Bool
  | InputEvent.line _ _ => false
  | InputEvent.eof => true

/-! ## The `call-tool` interactive flow (`handle_command`, lines 99-124).
The flow prompts for a tool name (stripped; empty aborts, lines 100-105),
prompts for the argument text (stripped, lines 107-109), runs it through
`json.loads` (line 111), and on `JSONDecodeError` prints one local
validation-failure message and returns without touching any session
(lines 112-114); only on success does it reach `send_call_tool`
(line 124).  `json.loads` is the Python standard-library JSON decoder —
an external collaborator (the spec's message codec); it is modelled below
by a standard JSON grammar (value = null / true / false / number / string
/ array / object, with surrounding whitespace allowed). -/

/-- A decoded JSON value.  String contents are kept as character lists;
the numeric magnitude of a number is irrelevant to the dispatch logic and
is not recorded. -/
inductive Json where
  | null
  | bool (b : Bool)
  | num
  | str (s : List Char)
  | arr (elems : List Json)
  | obj (fields : List (List Char × Json))

/-- JSON insignificant whitespace (also the whitespace `json.loads`
skips): space, tab, newline, carriage return. -/
def jsonWs (c : Char) : Bool :=
  c = ' ' || c = '\t' || c = '\n' || c = '\r'

/-- Skip insignificant whitespace. -/
def skipWs (cs : List Char) : List Char :=
  cs.dropWhile jsonWs

/-- Consume an expected literal character sequence, returning the rest of
the input on success. -/
def stripLit : List Char → List Char → Option (List Char)
  | [], cs => some cs
  | _ :: _, [] => none
  | e :: es, c :: cs => if c = e then stripLit es cs else none

/-- Consume one or more decimal digits. -/
def parseDigits : List Char → Option (List Char)
  | [] => none
  | c :: cs => if c.isDigit then some (cs.dropWhile Char.isDigit) else none

/-- Integer part of a JSON number: `0`, or a nonzero digit followed by
more digits. -/
def parseIntPart : List Char → Option (List Char)
  | [] => none
  | c :: cs =>
      if c = '0' then some cs
      else if c.isDigit then some (cs.dropWhile Char.isDigit) else none

/-- Optional fraction part: `.` followed by one or more digits. -/
def parseFracPart : List Char → Option (List Char)
  | '.' :: cs => parseDigits cs
  | cs => some cs

/-- Optional exponent part: `e`/`E`, optional sign, one or more digits. -/
def parseExpPart : List Char → Option (List Char)
  | [] => some []
  | c :: cs =>
      if c = 'e' || c = 'E' then
        match cs with
        | [] => none
        | s :: cs' =>
            if s = '+' || s = '-' then parseDigits cs' else parseDigits (s :: cs')
      else some (c :: cs)

/-- A JSON number after the optional leading minus sign. -/
def parseNumTail (cs : List Char) : Option (List Char) :=
  (parseIntPart cs).bind fun cs1 => (parseFracPart cs1).bind parseExpPart

/-- A JSON number. -/
def parseNumber : List Char → Option (List Char)
  | '-' :: cs => parseNumTail cs
  | cs => parseNumTail cs

/-- Body of a JSON string after the opening quote, up to and including
the closing quote.  A backslash escapes the next character (the
distinction between the individual escape forms does not affect
validity as seen by the dispatch logic). -/
def parseStrBody : List Char → Option (List Char × List Char)
  | [] => none
  | '\"' :: cs => some ([], cs)
  | '\\' :: [] => none
  | '\\' :: c :: cs =>
      (parseStrBody cs).map fun p => (c :: p.1, p.2)
  | c :: cs =>
      (parseStrBody cs).map fun p => (c :: p.1, p.2)

mutual

/-- Parse one JSON value (leading whitespace allowed), returning it with
the unconsumed input.  `fuel` dominates the recursion depth; `jsonLoads`
supplies more fuel than any input of that length can use. -/
def parseVal : Nat → List Char → Option (Json × List Char)
  | 0, _ => none
  | fuel + 1, input =>
      let cs := skipWs input
      match cs with
      | 'n' :: _ => (stripLit ['n', 'u', 'l', 'l'] cs).map fun r => (Json.null, r)
      | 't' :: _ => (stripLit ['t', 'r', 'u', 'e'] cs).map fun r => (Json.bool true, r)
      | 'f' :: _ =>
          (stripLit ['f', 'a', 'l', 's', 'e'] cs).map fun r => (Json.bool false, r)
      | '\"' :: rest => (parseStrBody rest).map fun p => (Json.str p.1, p.2)
      | '[' :: rest => parseArrBody fuel (skipWs rest)
      | '\x7b' :: rest => parseObjBody fuel (skipWs rest)
      | _ => (parseNumber cs).map fun r => (Json.num, r)

/-- Parse an array body after `[` (whitespace already skipped). -/
def parseArrBody : Nat → List Char → Option (Json × List Char)
  | 0, _ => none
  | fuel + 1, cs =>
      match cs with
      | ']' :: rest => some (Json.arr [], rest)
      | _ => (parseVal fuel cs).bind fun p => parseArrRest fuel p.2 [p.1]

/-- Parse the remaining elements of a non-empty array: `,` value ... `]`. -/
def parseArrRest : Nat → List Char → List Json → Option (Json × List Char)
  | 0, _, _ => none
  | fuel + 1, cs, acc =>
      match skipWs cs with
      | ']' :: rest => some (Json.arr acc.reverse, rest)
      | ',' :: rest => (parseVal fuel rest).bind fun p => parseArrRest fuel p.2 (p.1 :: acc)
      | _ => none

/-- Parse one object member: string key, `:`, value. -/
def parseMember : Nat → List Char → Option ((List Char × Json) × List Char)
  | 0, _ => none
  | fuel + 1, cs =>
      match skipWs cs with
      | '\"' :: rest =>
          (parseStrBody rest).bind fun p =>
            match skipWs p.2 with
            | ':' :: rest2 => (parseVal fuel rest2).map fun q => ((p.1, q.1), q.2)
            | _ => none
      | _ => none

/-- Parse an object body after the opening brace (whitespace already
skipped). -/
def parseObjBody : Nat → List Char → Option (Json × List Char)
  | 0, _ => none
  | fuel + 1, cs =>
      match cs with
      | '\x7d' :: rest => some (Json.obj [], rest)
      | _ => (parseMember fuel cs).bind fun p => parseObjRest fuel p.2 [p.1]

/-- Parse the remaining members of a non-empty object. -/
def parseObjRest : Nat → List Char → List (List Char × Json) → Option (Json × List Char)
  | 0, _, _ => none
  | fuel + 1, cs, acc =>
      match skipWs cs with
      | '\x7d' :: rest => some (Json.obj acc.reverse, rest)
      | ',' :: rest => (parseMember fuel rest).bind fun p => parseObjRest fuel p.2 (p.1 :: acc)
      | _ => none

end

/-- `json.loads` on the stripped argument text (line 111): parse one JSON
value and require that only whitespace follows it; `none` models a raised
`json.JSONDecodeError`. -/
def jsonLoads (s : String) : Option Json :=
  let cs := s.toList
  match parseVal (2 * cs.length + 4) cs with
  | some (v, rest) => if skipWs rest = [] then some v else none
  | none => none

/-- What one pass through the `call-tool` branch did: `dispatched` is the
tool name handed to `send_call_tool` (line 124) if the fan-out request was
issued at all, and `localFailureReports` counts the local error messages
printed before reaching any session (line 104 or line 113). -/
structure CallToolTrace where
  dispatched : Option String
  localFailureReports : Nat
deriving DecidableEq

/-- The `call-tool` branch of `handle_command` (lines 99-124), as a
function of the two raw prompt answers. -/
def callToolFlow (toolNameInput argsInput : String) : CallToolTrace :=
  let toolName := pyStrip toolNameInput
  if toolName = "" then ⟨none, 1⟩
  else
    let argumentsStr := pyStrip argsInput
    match jsonLoads argumentsStr with
    | none => ⟨none, 1⟩
    | some _ => ⟨some toolName, 0⟩

/-! ## Helper lemmas -/

/-- If `run` completed, the `finally` loop attempted a close on every
opened transport; if it did not complete, the `finally` block was never
entered and nothing was closed. -/
theorem runFrom_closed_spec (l : List ServerConnectSpec) :
    ∀ (i : Nat) (acc : List SessionRec),
      ((runFrom i acc l).outcome = RunOutcome.completed →
        (runFrom i acc l).closed = (runFrom i acc l).sessions.map SessionRec.index) ∧
      ((runFrom i acc l).outcome ≠ RunOutcome.completed →
        (runFrom i acc l).closed = []) := by
  induction l with
  | nil =>
      intro i acc
      exact ⟨fun _ => rfl, fun h => absurd rfl h⟩
  | cons s rest ih =>
      intro i acc
      cases s
      case configError => exact ⟨fun h => (nomatch h), fun _ => rfl⟩
      case stdioOpenError => exact ⟨fun h => (nomatch h), fun _ => rfl⟩
      case stdioInitRaises => exact ⟨fun h => (nomatch h), fun _ => rfl⟩
      case stdioInitFalsy => exact ⟨fun h => (nomatch h), fun _ => rfl⟩
      case stdioOk => exact ih (i + 1) (acc ++ [⟨i, TransportKind.stdio, 1, true⟩])
      case sseOpenError => exact ⟨fun h => (nomatch h), fun _ => rfl⟩
      case sseOk => exact ih (i + 1) (acc ++ [⟨i, TransportKind.sse, 0, false⟩])
      case unsupported => exact ⟨fun h => (nomatch h), fun _ => rfl⟩

/-- Invariant over the opened-session records of any run. -/
theorem runFrom_sessions_inv (P : SessionRec → Prop)
    (hstdio : ∀ i, P ⟨i, TransportKind.stdio, 1, true⟩)
    (hsse : ∀ i, P ⟨i, TransportKind.sse, 0, false⟩)
    (hfail : ∀ i, P ⟨i, TransportKind.stdio, 1, false⟩) :
    ∀ (l : List ServerConnectSpec) (i : Nat) (acc : List SessionRec),
      (∀ r ∈ acc, P r) → ∀ r ∈ (runFrom i acc l).sessions, P r := by
  intro l
  induction l with
  | nil => intro i acc hacc r hr; exact hacc r hr
  | cons s rest ih =>
      intro i acc hacc
      cases s
      case configError => exact hacc
      case stdioOpenError => exact hacc
      case stdioInitRaises =>
          intro r hr
          have hr' : r ∈ acc ++ [(⟨i, TransportKind.stdio, 1, false⟩ : SessionRec)] := hr
          rcases List.mem_append.mp hr' with hm | hm
          · exact hacc r hm
          · rw [List.mem_singleton.mp hm]; exact hfail i
      case stdioInitFalsy =>
          intro r hr
          have hr' : r ∈ acc ++ [(⟨i, TransportKind.stdio, 1, false⟩ : SessionRec)] := hr
          rcases List.mem_append.mp hr' with hm | hm
          · exact hacc r hm
          · rw [List.mem_singleton.mp hm]; exact hfail i
      case stdioOk =>
          refine ih (i + 1) (acc ++ [⟨i, TransportKind.stdio, 1, true⟩]) ?_
          intro r hr
          rcases List.mem_append.mp hr with hm | hm
          · exact hacc r hm
          · rw [List.mem_singleton.mp hm]; exact hstdio i
      case sseOpenError => exact hacc
      case sseOk =>
          refine ih (i + 1) (acc ++ [⟨i, TransportKind.sse, 0, false⟩]) ?_
          intro r hr
          rcases List.mem_append.mp hr with hm | hm
          · exact hacc r hm
          · rw [List.mem_singleton.mp hm]; exact hsse i
      case unsupported => exact hacc

/-- Invariant over the opened-session records of a run whose Running
phase executed (so the connect loop completed: every opened stdio session
passed its handshake, and SSE sessions were opened without one). -/
theorem runFrom_ranPhase_inv (P : SessionRec → Prop)
    (hstdio : ∀ i, P ⟨i, TransportKind.stdio, 1, true⟩)
    (hsse : ∀ i, P ⟨i, TransportKind.sse, 0, false⟩) :
    ∀ (l : List ServerConnectSpec) (i : Nat) (acc : List SessionRec),
      (∀ r ∈ acc, P r) → (runFrom i acc l).ranPhase = true →
        ∀ r ∈ (runFrom i acc l).sessions, P r := by
  intro l
  induction l with
  | nil => intro i acc hacc _ r hr; exact hacc r hr
  | cons s rest ih =>
      intro i acc hacc hran
      cases s
      case configError => exact nomatch hran
      case stdioOpenError => exact nomatch hran
      case stdioInitRaises => exact nomatch hran
      case stdioInitFalsy => exact nomatch hran
      case stdioOk =>
          have hran' : (runFrom (i + 1) (acc ++ [⟨i, TransportKind.stdio, 1, true⟩])
              rest).ranPhase = true := hran
          refine ih (i + 1) (acc ++ [⟨i, TransportKind.stdio, 1, true⟩]) ?_ hran'
          intro r hr
          rcases List.mem_append.mp hr with hm | hm
          · exact hacc r hm
          · rw [List.mem_singleton.mp hm]; exact hstdio i
      case sseOpenError => exact nomatch hran
      case sseOk =>
          have hran' : (runFrom (i + 1) (acc ++ [⟨i, TransportKind.sse, 0, false⟩])
              rest).ranPhase = true := hran
          refine ih (i + 1) (acc ++ [⟨i, TransportKind.sse, 0, false⟩]) ?_ hran'
          intro r hr
          rcases List.mem_append.mp hr with hm | hm
          · exact hacc r hm
          · rw [List.mem_singleton.mp hm]; exact hsse i
      case unsupported => exact nomatch hran

/-- The connect loop walks a prefix of servers that all connect
successfully and continues on the remainder with the accumulated session
records. -/
theorem runFrom_append_ok :
    ∀ (pre : List ServerConnectSpec), (∀ s ∈ pre, connectSucceeds s = true) →
      ∀ (i : Nat) (acc : List SessionRec) (l : List ServerConnectSpec),
        runFrom i acc (pre ++ l) = runFrom (i + pre.length) (acc ++ succRecords i pre) l := by
  intro pre
  induction pre with
  | nil => intro _ i acc l; simp [succRecords]
  | cons s rest ih =>
      intro h i acc l
      have hs : connectSucceeds s = true := h s (List.mem_cons_self _ _)
      have hrest : ∀ x ∈ rest, connectSucceeds x = true :=
        fun x hx => h x (List.mem_cons_of_mem _ hx)
      cases s
      case configError => exact nomatch hs
      case stdioOpenError => exact nomatch hs
      case stdioInitRaises => exact nomatch hs
      case stdioInitFalsy => exact nomatch hs
      case stdioOk =>
          have e := ih hrest (i + 1) (acc ++ [⟨i, TransportKind.stdio, 1, true⟩]) l
          show runFrom (i + 1) (acc ++ [⟨i, TransportKind.stdio, 1, true⟩]) (rest ++ l)
              = runFrom (i + (rest.length + 1))
                  (acc ++ (⟨i, TransportKind.stdio, 1, true⟩ :: succRecords (i + 1) rest)) l
          rw [e]
          congr 1
          · omega
          · simp
      case sseOpenError => exact nomatch hs
      case sseOk =>
          have e := ih hrest (i + 1) (acc ++ [⟨i, TransportKind.sse, 0, false⟩]) l
          show runFrom (i + 1) (acc ++ [⟨i, TransportKind.sse, 0, false⟩]) (rest ++ l)
              = runFrom (i + (rest.length + 1))
                  (acc ++ (⟨i, TransportKind.sse, 0, false⟩ :: succRecords (i + 1) rest)) l
          rw [e]
          congr 1
          · omega
          · simp
      case unsupported => exact nomatch hs

/-- Over a prefix that connects successfully, one session record is
accumulated per server. -/
theorem succRecords_length :
    ∀ (l : List ServerConnectSpec), (∀ s ∈ l, connectSucceeds s = true) →
      ∀ i, (succRecords i l).length = l.length := by
  intro l
  induction l with
  | nil => intro _ _; rfl
  | cons s rest ih =>
      intro h i
      have hs : connectSucceeds s = true := h s (List.mem_cons_self _ _)
      have hrest : ∀ x ∈ rest, connectSucceeds x = true :=
        fun x hx => h x (List.mem_cons_of_mem _ hx)
      cases s
      case configError => exact nomatch hs
      case stdioOpenError => exact nomatch hs
      case stdioInitRaises => exact nomatch hs
      case stdioInitFalsy => exact nomatch hs
      case stdioOk =>
          show (succRecords (i + 1) rest).length + 1 = rest.length + 1
          rw [ih hrest (i + 1)]
      case sseOpenError => exact nomatch hs
      case sseOk =>
          show (succRecords (i + 1) rest).length + 1 = rest.length + 1
          rw [ih hrest (i + 1)]
      case unsupported => exact nomatch hs

/-- One expected per-server result per session behavior. -/
theorem expectedFrom_length :
    ∀ (l : List SessionBehavior) (i : Nat), (expectedFrom i l).length = l.length := by
  intro l
  induction l with
  | nil => intro _; rfl
  | cons b rest ih => intro i; show (expectedFrom (i + 1) rest).length + 1 = rest.length + 1; rw [ih]

/-- A fan-out loop over raise-free session behaviors emits one result per
session, in order, and the outer exception handler stays silent. -/
theorem fanout_no_raises :
    ∀ (l : List SessionBehavior), SessionBehavior.raises ∉ l →
      ∀ i, fanout i l = ⟨expectedFrom i l, false⟩ := by
  intro l
  induction l with
  | nil => intro _ _; rfl
  | cons b rest ih =>
      intro h i
      have hb : b ≠ SessionBehavior.raises := fun e => h (e ▸ List.mem_cons_self _ _)
      have hrest : SessionBehavior.raises ∉ rest := fun e => h (List.mem_cons_of_mem _ e)
      cases b
      case ok => simp [fanout, expectedFrom, expectedResult, ih hrest]
      case bad => simp [fanout, expectedFrom, expectedResult, ih hrest]
      case raises => exact absurd rfl hb

/-- A fan-out loop whose first raising session is preceded by raise-free
ones emits exactly the earlier sessions' results and one error message;
the raising session and all later ones get no per-server result. -/
theorem fanout_append_raises :
    ∀ (pre : List SessionBehavior), SessionBehavior.raises ∉ pre →
      ∀ (i : Nat) (post : List SessionBehavior),
        fanout i (pre ++ SessionBehavior.raises :: post) = ⟨expectedFrom i pre, true⟩ := by
  intro pre
  induction pre with
  | nil => intro _ _ _; rfl
  | cons b rest ih =>
      intro h i post
      have hb : b ≠ SessionBehavior.raises := fun e => h (e ▸ List.mem_cons_self _ _)
      have hrest : SessionBehavior.raises ∉ rest := fun e => h (List.mem_cons_of_mem _ e)
      cases b
      case ok => simp [fanout, expectedFrom, expectedResult, ih hrest]
      case bad => simp [fanout, expectedFrom, expectedResult, ih hrest]
      case raises => exact absurd rfl hb

/-- Unfolded form of the `call-tool` flow. -/
theorem callToolFlow_eq (n a : String) :
    callToolFlow n a =
      if pyStrip n = "" then ⟨none, 1⟩
      else
        match jsonLoads (pyStrip a) with
        | none => ⟨none, 1⟩
        | some _ => ⟨some (pyStrip n), 0⟩ := rfl

/-- A loop over quit-free, EOF-free input consumes every line and is
still running afterwards. -/
theorem interactiveLoop_continues :
    ∀ (inputs : List InputEvent),
      (∀ ev ∈ inputs, isQuitEvent ev = false ∧ isEofEvent ev = false) →
      (interactiveLoop inputs).exit = LoopExit.pendingInput ∧
      (interactiveLoop inputs).linesRead = inputs.length := by
  intro inputs
  induction inputs with
  | nil => intro _; exact ⟨rfl, rfl⟩
  | cons ev rest ih =>
      intro h
      have hev := h ev (List.mem_cons_self _ _)
      have hrest : ∀ x ∈ rest, isQuitEvent x = false ∧ isEofEvent x = false :=
        fun x hx => h x (List.mem_cons_of_mem _ hx)
      have hr := ih hrest
      cases ev with
      | eof => exact absurd hev.2 (by simp [isEofEvent])
      | line s e =>
          have hq : shouldContinue (normalizeCommand s) = true := by
            have h1 := hev.1
            simp [isQuitEvent] at h1
            exact h1
          by_cases hempty : normalizeCommand s = ""
          · refine ⟨?_, ?_⟩ <;> simp [interactiveLoop, hempty, hr.1, hr.2]
          · refine ⟨?_, ?_⟩ <;> simp [interactiveLoop, hempty, hq, hr.1, hr.2]

/-- A loop whose input is a quit-free, EOF-free prefix followed by a
quit line stops right at the quit line: the prompt is read exactly
`pre.length + 1` times, whatever input follows. -/
theorem interactiveLoop_quits :
    ∀ (pre : List InputEvent),
      (∀ ev ∈ pre, isQuitEvent ev = false ∧ isEofEvent ev = false) →
      ∀ (s : String) (e : Bool) (post : List InputEvent),
        isQuitEvent (InputEvent.line s e) = true →
        (interactiveLoop (pre ++ InputEvent.line s e :: post)).exit = LoopExit.quitCommand ∧
        (interactiveLoop (pre ++ InputEvent.line s e :: post)).linesRead = pre.length + 1 := by
  intro pre
  induction pre with
  | nil =>
      intro _ s e post hq
      have hs : shouldContinue (normalizeCommand s) = false := by
        simp [isQuitEvent] at hq
        exact hq
      have hne : normalizeCommand s ≠ "" := by
        intro h0
        rw [h0] at hs
        exact absurd hs (by decide)
      refine ⟨?_, ?_⟩ <;> simp [interactiveLoop, hne, hs]
  | cons ev rest ih =>
      intro h s e post hq
      have hev := h ev (List.mem_cons_self _ _)
      have hrest : ∀ x ∈ rest, isQuitEvent x = false ∧ isEofEvent x = false :=
        fun x hx => h x (List.mem_cons_of_mem _ hx)
      have hr := ih hrest s e post hq
      cases ev with
      | eof => exact absurd hev.2 (by simp [isEofEvent])
      | line s2 e2 =>
          have hq2 : shouldContinue (normalizeCommand s2) = true := by
            have h1 := hev.1
            simp [isQuitEvent] at h1
            exact h1
          by_cases hempty : normalizeCommand s2 = ""
          · refine ⟨?_, ?_⟩ <;> simp [interactiveLoop, hempty, hr.1, hr.2]
          · refine ⟨?_, ?_⟩ <;> simp [interactiveLoop, hempty, hq2, hr.1, hr.2]

/-- Adjacent per-server operations in a fan-out schedule abut: each
starts exactly when the previous one finishes. -/
theorem sequentialSchedule_chain (l : List Nat) :
    ∀ t, List.Chain' (fun a b : Nat × Nat => b.1 = a.2) (sequentialSchedule t l) := by
  induction l with
  | nil => intro _; exact List.chain'_nil
  | cons d rest ih =>
      intro t
      have h := ih (t + d)
      cases rest with
      | nil => exact List.chain'_singleton _
      | cons d2 r2 => exact List.chain'_cons.mpr ⟨rfl, h⟩

/-- One schedule entry per configured server. -/
theorem sequentialSchedule_length (l : List Nat) :
    ∀ t, (sequentialSchedule t l).length = l.length := by
  induction l with
  | nil => intro _; rfl
  | cons d rest ih =>
      intro t
      show (sequentialSchedule (t + d) rest).length + 1 = rest.length + 1
      rw [ih (t + d)]

/-! ## Claim theorems -/

/-- Claim C1 fails on the code: with two configured servers where the
operation on server 1 raises, the fan-out dispatch produces zero
per-server results instead of one per server — the exception aborts the
results of the remaining session instead of yielding a failure-kind
result for the raising session only. -/
theorem c1_counterexample :
    (handleFanoutCommand [SessionBehavior.raises, SessionBehavior.ok]).results.length = 0 ∧
    (handleFanoutCommand [SessionBehavior.raises, SessionBehavior.ok]).errorMessage = true ∧
    [SessionBehavior.raises, SessionBehavior.ok].length = 2 := by
  decide

/-- Claim C1 (amended): when no session operation raises, dispatching a
fan-out command produces exactly N per-server results in configuration
order (a falsy response yields a failure-kind result for that session
only, and the loop continues); but when the operation on one session
raises, the batch is aborted: only the earlier sessions' results are
emitted, one error message is printed, and the raising session and all
later ones get no result. -/
theorem c1_fanout_amended (pre post : List SessionBehavior)
    (h : SessionBehavior.raises ∉ pre) :
    (handleFanoutCommand pre).results = expectedFrom 0 pre ∧
    (handleFanoutCommand pre).errorMessage = false ∧
    (handleFanoutCommand pre).results.length = pre.length ∧
    (handleFanoutCommand (pre ++ SessionBehavior.raises :: post)).results = expectedFrom 0 pre ∧
    (handleFanoutCommand (pre ++ SessionBehavior.raises :: post)).errorMessage = true := by
  have e1 := fanout_no_raises pre h 0
  have e2 := fanout_append_raises pre h 0 post
  refine ⟨?_, ?_, ?_, ?_, ?_⟩ <;>
    simp [handleFanoutCommand, e1, e2, expectedFrom_length]

/-- Witness for C1 (amended) at a concrete input: two raise-free sessions
(one truthy, one falsy) yield exactly their two ordered results. -/
theorem c1_fanout_amended_witness :
    (handleFanoutCommand [SessionBehavior.ok, SessionBehavior.bad]).results
      = expectedFrom 0 [SessionBehavior.ok, SessionBehavior.bad] :=
  (c1_fanout_amended [SessionBehavior.ok, SessionBehavior.bad] [SessionBehavior.ok]
    (by decide)).1

/-- Claim C2 fails on the code: with server 1 opening successfully and
server 2's transport open failing, `run` exits with server 1's transport
opened (index 0 in `sessions`) but no close attempted on it (`closed = []`)
— the connect loop sits outside the `try`/`finally`, so the opened
transport is left without a close attempt. -/
theorem c2_counterexample :
    (run [ServerConnectSpec.stdioOk, ServerConnectSpec.stdioOpenError]).sessions.map
      SessionRec.index = [0] ∧
    (run [ServerConnectSpec.stdioOk, ServerConnectSpec.stdioOpenError]).closed = [] := by
  decide

/-- Claim C2 (amended): close is attempted on every opened transport
exactly when the connect loop completed for all servers (the
`try`/`finally` was entered); on a configuration-load or transport-open
failure, `run` exits without attempting close on any previously opened
transport. -/
theorem c2_closing_amended (servers : List ServerConnectSpec) :
    ((run servers).outcome = RunOutcome.completed →
      (run servers).closed = (run servers).sessions.map SessionRec.index) ∧
    ((run servers).outcome ≠ RunOutcome.completed → (run servers).closed = []) :=
  runFrom_closed_spec servers 0 []

/-- Witness for C2 (amended) at a concrete input: a fully connected run
closes every opened transport. -/
theorem c2_closing_amended_witness :
    (run [ServerConnectSpec.stdioOk, ServerConnectSpec.sseOk]).closed
      = (run [ServerConnectSpec.stdioOk, ServerConnectSpec.sseOk]).sessions.map
          SessionRec.index :=
  (c2_closing_amended [ServerConnectSpec.stdioOk, ServerConnectSpec.sseOk]).1 (by decide)

/-- Claim C3 fails on the code: when the first server's `send_initialize`
returns falsy, `run` returns immediately — the second configured server
is never opened or handshaked (only one session record exists) and the
Running step never executes. -/
theorem c3_counterexample :
    (run [ServerConnectSpec.stdioInitFalsy, ServerConnectSpec.stdioOk]).ranPhase = false ∧
    (run [ServerConnectSpec.stdioInitFalsy, ServerConnectSpec.stdioOk]).sessions.length = 1 := by
  decide

/-- Claim C3 (amended): a failed `initialize()` handshake aborts the whole
run: after any prefix of successfully connected servers, a server whose
handshake returns falsy makes `run` return at once — the remaining
configured servers are never attempted (exactly `pre.length + 1`
transports were opened) and the Running step does not execute. -/
theorem c3_handshake_amended (pre post : List ServerConnectSpec)
    (h : ∀ s ∈ pre, connectSucceeds s = true) :
    (run (pre ++ ServerConnectSpec.stdioInitFalsy :: post)).outcome = RunOutcome.initFailed ∧
    (run (pre ++ ServerConnectSpec.stdioInitFalsy :: post)).ranPhase = false ∧
    (run (pre ++ ServerConnectSpec.stdioInitFalsy :: post)).sessions.length
      = pre.length + 1 := by
  have e : run (pre ++ ServerConnectSpec.stdioInitFalsy :: post)
      = runFrom (0 + pre.length) ([] ++ succRecords 0 pre)
          (ServerConnectSpec.stdioInitFalsy :: post) :=
    runFrom_append_ok pre h 0 [] _
  rw [e]
  refine ⟨rfl, rfl, ?_⟩
  show (([] ++ succRecords 0 pre)
      ++ [(⟨0 + pre.length, TransportKind.stdio, 1, false⟩ : SessionRec)]).length
      = pre.length + 1
  simp [succRecords_length pre h 0]

/-- Witness for C3 (amended) at a concrete input: one healthy SSE server
followed by a handshake-failing stdio server and one more configured
server. -/
theorem c3_handshake_amended_witness :
    (run [ServerConnectSpec.sseOk, ServerConnectSpec.stdioInitFalsy,
        ServerConnectSpec.stdioOk]).ranPhase = false :=
  (c3_handshake_amended [ServerConnectSpec.sseOk] [ServerConnectSpec.stdioOk]
    (by decide)).2.1

/-- Claim C4 fails on the code: a run with one SSE server reaches the
Running step (`ranPhase = true`, so application requests are dispatched
to every session in `sessions`) while that session's handshake was never
attempted, let alone completed (`initAttempts = 0`, `initOk = false`) —
the SSE branch of the connect loop performs no `send_initialize`. -/
theorem c4_counterexample :
    (run [ServerConnectSpec.sseOk]).ranPhase = true ∧
    (run [ServerConnectSpec.sseOk]).sessions = [⟨0, TransportKind.sse, 0, false⟩] := by
  decide

/-- Claim C4 (amended): for stdio sessions the invariant holds — whenever
the Running step executes (and can therefore send application requests to
the session streams), every opened stdio session has completed its
handshake successfully — and initialize is attempted at most once per
session; SSE sessions, however, never attempt initialize at all, so
they receive application requests without any handshake. -/
theorem c4_handshake_invariant_amended (servers : List ServerConnectSpec) :
    (∀ r ∈ (run servers).sessions, r.initAttempts ≤ 1) ∧
    ((run servers).ranPhase = true →
      ∀ r ∈ (run servers).sessions,
        r.kind = TransportKind.stdio → r.initOk = true) ∧
    (∀ r ∈ (run servers).sessions,
      r.kind = TransportKind.sse → r.initAttempts = 0) := by
  refine ⟨?_, ?_, ?_⟩
  · exact runFrom_sessions_inv (fun r => r.initAttempts ≤ 1)
      (fun _ => le_refl 1) (fun _ => Nat.zero_le 1) (fun _ => le_refl 1)
      servers 0 [] (fun r hr => (nomatch hr))
  · intro hran
    exact runFrom_ranPhase_inv (fun r => r.kind = TransportKind.stdio → r.initOk = true)
      (fun _ _ => rfl) (fun _ hk => (nomatch hk))
      servers 0 [] (fun r hr => (nomatch hr)) hran
  · exact runFrom_sessions_inv (fun r => r.kind = TransportKind.sse → r.initAttempts = 0)
      (fun _ hk => (nomatch hk)) (fun _ _ => rfl) (fun _ hk => (nomatch hk))
      servers 0 [] (fun r hr => (nomatch hr))

/-- Witness for C4 (amended) at concrete inputs: the session opened by a
one-SSE-server run attempted initialize at most once, and the stdio
session of a completed one-stdio-server run reached `initOk`. -/
theorem c4_handshake_invariant_amended_witness :
    ((⟨0, TransportKind.sse, 0, false⟩ : SessionRec).initAttempts ≤ 1) ∧
    ((⟨0, TransportKind.stdio, 1, true⟩ : SessionRec).initOk = true) := by
  have h1 := c4_handshake_invariant_amended [ServerConnectSpec.sseOk]
  have h2 := c4_handshake_invariant_amended [ServerConnectSpec.stdioOk]
  exact ⟨h1.1 ⟨0, TransportKind.sse, 0, false⟩ (by decide),
    h2.2.1 (by decide) ⟨0, TransportKind.stdio, 1, true⟩ (by decide) rfl⟩

/-- Claim C5 fails on the code: a run whose single server fails its
`initialize()` handshake ends with `run` returning normally, so
`cli_main` executes `sys.exit(None)` and the process exit code is 0 —
not non-zero as the claim requires for a handshake failure. -/
theorem c5_counterexample :
    (run [ServerConnectSpec.stdioInitFalsy]).outcome = RunOutcome.initFailed ∧
    exitCode (run [ServerConnectSpec.stdioInitFalsy]) = 0 := by
  decide

/-- Claim C5 (amended): the exit code is non-zero exactly when `run`
raises (configuration error, transport-open failure, unsupported
transport); graceful completion, user-initiated quit, and also a
handshake failure all exit 0.  When the first named server is absent
from configuration, the process exits non-zero before any transport
opens (an absent later server still exits non-zero, but the earlier
transports have already opened). -/
theorem c5_exit_code_amended (servers : List ServerConnectSpec) :
    (exitCode (run servers) ≠ 0 ↔ (run servers).outcome = RunOutcome.raised) ∧
    (run (ServerConnectSpec.configError :: servers)).sessions = [] ∧
    exitCode (run (ServerConnectSpec.configError :: servers)) = 1 := by
  refine ⟨?_, rfl, rfl⟩
  cases h : (run servers).outcome <;> simp [exitCode, exitCodeOf, h]

/-- Witness for C5 (amended) at a concrete input: an absent first server
name opens nothing and exits 1. -/
theorem c5_exit_code_amended_witness :
    (run [ServerConnectSpec.configError]).sessions = [] ∧
    exitCode (run [ServerConnectSpec.configError]) = 1 :=
  ⟨(c5_exit_code_amended []).2.1, (c5_exit_code_amended []).2.2⟩

/-- Claim C6: a `call-tool` invocation whose argument text does not parse
as JSON short-circuits with exactly one local validation-failure report
and dispatches nothing to any session; the request is dispatched only
when the (stripped) tool name is nonempty and the argument text parses as
JSON — and the literal text `not json` does not parse. -/
theorem c6_call_tool_validation (toolNameInput argsInput : String) :
    (jsonLoads (pyStrip argsInput) = none →
      (callToolFlow toolNameInput argsInput).dispatched = none ∧
      (callToolFlow toolNameInput argsInput).localFailureReports = 1) ∧
    (∀ t, (callToolFlow toolNameInput argsInput).dispatched = some t →
      t = pyStrip toolNameInput ∧ t ≠ "" ∧ (jsonLoads (pyStrip argsInput)).isSome = true) ∧
    jsonLoads "not json" = none := by
  refine ⟨?_, ?_, by rfl⟩
  · intro hnone
    rw [callToolFlow_eq]
    by_cases hname : pyStrip toolNameInput = ""
    · rw [if_pos hname]; exact ⟨rfl, rfl⟩
    · rw [if_neg hname, hnone]; exact ⟨rfl, rfl⟩
  · intro t ht
    rw [callToolFlow_eq] at ht
    by_cases hname : pyStrip toolNameInput = ""
    · rw [if_pos hname] at ht; exact absurd ht (by simp)
    · rw [if_neg hname] at ht
      cases hjson : jsonLoads (pyStrip argsInput) with
      | none => rw [hjson] at ht; exact absurd ht (by simp)
      | some v =>
          rw [hjson] at ht
          have hts : some (pyStrip toolNameInput) = some t := ht
          have htn : t = pyStrip toolNameInput := (Option.some_injective _ hts).symm
          exact ⟨htn, htn ▸ hname, rfl⟩

/-- Witness for C6 at a concrete input: argument text `not json` yields
one local failure and no dispatch. -/
theorem c6_call_tool_validation_witness :
    (callToolFlow "mytool" "not json").dispatched = none ∧
    (callToolFlow "mytool" "not json").localFailureReports = 1 :=
  (c6_call_tool_validation "mytool" "not json").1 (by rfl)

/-- Claim C7: the interactive loop never terminates because of a command
error or an unrecognized command — over any quit-free, EOF-free input
(including lines whose handler raised and unknown commands) it consumes
every line and is still running; it stops exactly at an explicit
`quit`/`exit` line or end-of-input, and after a quit line it returns
having read no further input (`pre.length + 1` prompt reads,
independent of what follows). -/
theorem c7_loop_termination (inputs pre post : List InputEvent) (s : String) (e : Bool)
    (hinputs : ∀ ev ∈ inputs, isQuitEvent ev = false ∧ isEofEvent ev = false)
    (hpre : ∀ ev ∈ pre, isQuitEvent ev = false ∧ isEofEvent ev = false)
    (hq : isQuitEvent (InputEvent.line s e) = true) :
    ((interactiveLoop inputs).exit = LoopExit.pendingInput ∧
     (interactiveLoop inputs).linesRead = inputs.length) ∧
    ((interactiveLoop (pre ++ InputEvent.line s e :: post)).exit = LoopExit.quitCommand ∧
     (interactiveLoop (pre ++ InputEvent.line s e :: post)).linesRead = pre.length + 1) :=
  ⟨interactiveLoop_continues inputs hinputs, interactiveLoop_quits pre hpre s e post hq⟩

/-- Witness for C7 at concrete inputs: an erroring `help` line and an
unknown command keep the loop running; `list-tools` then `quit` stops
after two reads even with a `ping` line still pending. -/
theorem c7_loop_termination_witness :
    ((interactiveLoop [InputEvent.line "help" true,
        InputEvent.line "bogus-command" false]).exit = LoopExit.pendingInput) ∧
    ((interactiveLoop [InputEvent.line "list-tools" false, InputEvent.line "quit" false,
        InputEvent.line "ping" false]).linesRead = 2) := by
  have h := c7_loop_termination
    [InputEvent.line "help" true, InputEvent.line "bogus-command" false]
    [InputEvent.line "list-tools" false] [InputEvent.line "ping" false]
    "quit" false (by decide) (by decide) (by decide)
  exact ⟨h.1.1, h.2.2⟩

/-- Claim C8: the closing loop makes exactly one close attempt per opened
transport, each waited on for at most the one-second deadline
(`move_on_after(1)`); a close that never completes is abandoned at the
deadline, so the total closing time for k opened transports is at most
k times the deadline — the process never hangs in Closing. -/
theorem c8_bounded_closing (closes : List (Option Nat)) :
    closingTotalTime closes ≤ closes.length * closeDeadlineMs ∧
    closeElapsed none = closeDeadlineMs ∧
    (∀ d, closeElapsed d ≤ closeDeadlineMs) ∧
    (closes.map closeElapsed).length = closes.length := by
  refine ⟨?_, rfl, ?_, by simp⟩
  · induction closes with
    | nil => simp [closingTotalTime]
    | cons d rest ih =>
        have hd : closeElapsed d ≤ closeDeadlineMs := by
          cases d with
          | none => exact le_refl _
          | some n => exact min_le_right _ _
        calc closingTotalTime (d :: rest)
            = closeElapsed d + closingTotalTime rest := by
              simp [closingTotalTime]
          _ ≤ closeDeadlineMs + rest.length * closeDeadlineMs := Nat.add_le_add hd ih
          _ = (rest.length + 1) * closeDeadlineMs := by ring
          _ = (d :: rest).length * closeDeadlineMs := by simp
  · intro d
    cases d with
    | none => exact le_refl _
    | some n => exact min_le_right _ _

/-- Claim C9 fails on the code: the fan-out loop is sequential, so the
start time of server 2's operation depends on server 1's duration — with
a slow server 1 (100 ms) the fast server 2 does not start until t = 100,
while with an instant server 1 it starts at t = 0.  A slow session's
wait therefore does block the faster session's request/response cycle. -/
theorem c9_counterexample :
    (fanoutSchedule [100, 1]).get? 1 = some (100, 101) ∧
    (fanoutSchedule [0, 1]).get? 1 = some (0, 1) := by
  decide

/-- Claim C9 (amended): the fan-out over the session set issues the
per-session operations strictly sequentially in configuration order —
each operation starts exactly when the previous one finishes (the
schedule is a chain of abutting intervals, one per server), so a slow
session delays every later session. -/
theorem c9_sequential_amended (durations : List Nat) :
    List.Chain' (fun a b : Nat × Nat => b.1 = a.2) (fanoutSchedule durations) ∧
    (fanoutSchedule durations).length = durations.length ∧
    ∀ (t d : Nat) (rest : List Nat),
      sequentialSchedule t (d :: rest) = (t, t + d) :: sequentialSchedule (t + d) rest :=
  ⟨sequentialSchedule_chain durations 0, sequentialSchedule_length durations 0,
    fun _ _ _ => rfl⟩

/-- Claim C10: every interactive line is stripped and lowercased before
dispatch — whatever is dispatched equals the normalized line, `PING`
selects the `ping` branch of `handle_command`, and a whitespace-only
line normalizes to empty and is skipped without dispatching any command
(the loop just continues). -/
theorem c10_normalization (s : String) :
    (normalizeCommand s = "" →
      (interactiveLoop [InputEvent.line s false]).dispatched = [] ∧
      (interactiveLoop [InputEvent.line s false]).exit = LoopExit.pendingInput) ∧
    (∀ c ∈ (interactiveLoop [InputEvent.line s false]).dispatched,
      c = normalizeCommand s) ∧
    classifyCommand (normalizeCommand "PING") = CommandKind.ping ∧
    normalizeCommand "  \t " = "" := by
  refine ⟨?_, ?_, by decide, by decide⟩
  · intro h0
    refine ⟨?_, ?_⟩ <;> simp [interactiveLoop, h0]
  · intro c hc
    by_cases h0 : normalizeCommand s = ""
    · simp [interactiveLoop, h0] at hc
    · by_cases h1 : shouldContinue (normalizeCommand s) = true
      · simp [interactiveLoop, h0, h1] at hc
        exact hc
      · simp [interactiveLoop, h0, h1] at hc
        exact hc

/-- Witness for C10 at a concrete input: a whitespace-only line
dispatches nothing, and `PING` selects the ping branch. -/
theorem c10_normalization_witness :
    (interactiveLoop [InputEvent.line "   " false]).dispatched = [] ∧
    classifyCommand (normalizeCommand "PING") = CommandKind.ping := by
  have h := c10_normalization "   "
  exact ⟨(h.1 (by decide)).1, h.2.2.1⟩

end MCPCli
